import Mathlib

/-!
Verification of the workflow state machine of
`ai_data_science_team/agents/data_visualization_agent.py`.

The pipeline synthesizes a plotting function via an LLM, executes it on a
dataset, repairs it on failure (bounded by a retry counter), with an optional
human review gate and an optional explanation stage.

External collaborators (the language model, the pandas conversion plus the
dataset summarizer, the code post-processing text transforms, and the Python
output parser) are taken as function parameters of the node definitions:
each is a fixed pure call in the source, so the node is a function of the
collaborator and the state.  Repository helpers that are not part of the
source file under study (`node_func_*`, `create_coding_agent_graph`,
`log_ai_function`) are modelled from the specification; each such definition
says so in its doc comment.
-/

namespace DataVizAgent

/-- Column-oriented dictionary form of a dataframe, as produced by
`pd.DataFrame.to_dict()`: column name mapped to the column values
(values kept as strings; their content is opaque to the pipeline). -/
abbrev DataDict : Type := List (String × List String)

/-- A plotly figure in dictionary form (JSON-like key/value pairs; content
opaque to the pipeline). -/
abbrev PlotlyDict : Type := List (String × String)

/-- Python `str.strip()`: the string with leading and trailing whitespace
removed (defined structurally over the character list so that it
evaluates). -/
def pyStrip (s : String) : String :=
  String.mk
    (((s.data.dropWhile Char.isWhitespace).reverse.dropWhile
        Char.isWhitespace).reverse)

/-- Python `str.lower()`: every character lowered (defined structurally over
the character list so that it evaluates). -/
def pyLower (s : String) : String :=
  String.mk (s.data.map Char.toLower)

/-- The agent name constant `AGENT_NAME` of the source file. -/
def AGENT_NAME : String := "data_visualization_agent"

/-- The default log directory `LOG_PATH` (`os.getcwd() + "logs/"`; the
current working directory component is dropped, keeping the fixed suffix). -/
def LOG_PATH : String := "logs/"

/-- The shared workflow state: the `GraphState` TypedDict defined inside
`make_data_visualization_agent`.  Fields that Python may leave absent or
`None` are `Option`-typed; `state.get(k)` returning `None` is `none`. -/
structure GraphState where
  messages : List String
  user_instructions : Option String
  user_instructions_processed : Option String
  recommended_steps : Option String
  data_raw : Option DataDict
  plotly_graph : Option PlotlyDict
  all_datasets_summary : Option String
  data_visualization_function : Option String
  data_visualization_function_path : Option String
  data_visualization_function_name : Option String
  data_visualization_error : Option String
  max_retries : Nat
  retry_count : Nat
deriving DecidableEq

/-- A partial state update, as returned by a node (a Python dict holding only
the keys the node sets).  `none` in an `Option (Option _)` field means the
key is absent from the returned dict; `messages` is a list because its
`GraphState` annotation is `Annotated[Sequence[BaseMessage], operator.add]`. -/
structure StateUpdate where
  messages : List String := []
  user_instructions : Option (Option String) := none
  user_instructions_processed : Option (Option String) := none
  recommended_steps : Option (Option String) := none
  data_raw : Option (Option DataDict) := none
  plotly_graph : Option (Option PlotlyDict) := none
  all_datasets_summary : Option (Option String) := none
  data_visualization_function : Option (Option String) := none
  data_visualization_function_path : Option (Option String) := none
  data_visualization_function_name : Option (Option String) := none
  data_visualization_error : Option (Option String) := none
  max_retries : Option Nat := none
  retry_count : Option Nat := none

/-- Merge of a node's partial update into the state, following the
`GraphState` annotations: `messages` is concatenated (`operator.add`),
every other key overwrites (last write wins). -/
def mergeState (st : GraphState) (u : StateUpdate) : GraphState where
  messages := st.messages ++ u.messages
  user_instructions := u.user_instructions.getD st.user_instructions
  user_instructions_processed :=
    u.user_instructions_processed.getD st.user_instructions_processed
  recommended_steps := u.recommended_steps.getD st.recommended_steps
  data_raw := u.data_raw.getD st.data_raw
  plotly_graph := u.plotly_graph.getD st.plotly_graph
  all_datasets_summary := u.all_datasets_summary.getD st.all_datasets_summary
  data_visualization_function :=
    u.data_visualization_function.getD st.data_visualization_function
  data_visualization_function_path :=
    u.data_visualization_function_path.getD st.data_visualization_function_path
  data_visualization_function_name :=
    u.data_visualization_function_name.getD st.data_visualization_function_name
  data_visualization_error :=
    u.data_visualization_error.getD st.data_visualization_error
  max_retries := u.max_retries.getD st.max_retries
  retry_count := u.retry_count.getD st.retry_count

/-! ### Instruction stage (`chart_instructor`) -/

/-- The fixed label that `chart_instructor` prepends to the model output
when it sets `recommended_steps` (the source keeps the leaked
"Data Cleaning" wording). -/
def recommendedStepsLabel : String := "\n\n# Recommended Data Cleaning Steps:\n"

/-- The Instruction stage node `chart_instructor`.

`summarize` stands for the external composition
`pd.DataFrame.from_dict` then `get_dataframe_summary([df], n_sample, skip_stats=False)`
(a list of per-dataset summaries); `llmInstruct` stands for the fixed chain
`recommend_steps_prompt | llm`, a function of the three prompt inputs
`user_instructions`, `recommended_steps` and `all_datasets_summary`,
returning the message content.  The node recomputes the dataset summary
unconditionally, invokes the chain, and returns a dict replacing
`recommended_steps` with the labelled, stripped model content and setting
`all_datasets_summary`. -/
def chart_instructor (n_samples : Nat)
    (summarize : Option DataDict → Nat → List String)
    (llmInstruct : Option String → Option String → String → String)
    (st : GraphState) : StateUpdate :=
  let all_datasets_summary := summarize st.data_raw n_samples
  let all_datasets_summary_str := String.intercalate "\n\n" all_datasets_summary
  let content :=
    llmInstruct st.user_instructions st.recommended_steps all_datasets_summary_str
  { recommended_steps := some (some (recommendedStepsLabel ++ pyStrip content)),
    all_datasets_summary := some (some all_datasets_summary_str) }

/-! ### Synthesis stage (`chart_generator`) -/

/-- Result of `log_ai_function`: the `(file_path, file_name)` pair returned
to the node, plus the list of filesystem paths written. -/
structure LogResult where
  file_path : String
  file_name : String
  writes : List String
deriving DecidableEq

/-- Modelled from the spec: `log_ai_function` is from
`ai_data_science_team.tools.logging`, which is not under src/.  §6 Logging
collaborator: `persist(code_text, base_name, enabled, directory, overwrite)
-> (path, final_name)`; when `overwrite=false` and a file exists, produces a
distinct name deterministically by incrementing suffix; when disabled,
returns empty path without touching the filesystem.  `existing` is the set
of file names already present in the log directory. -/
def log_ai_function (response : String) (file_name : String) (log : Bool)
    (log_path : Option String) (overwrite : Bool) (existing : List String) :
    LogResult :=
  if log then
    let dir := log_path.getD LOG_PATH
    let final_name :=
      if overwrite || !(existing.contains file_name) then file_name
      else
        match (List.range (existing.length + 1)).find?
            (fun i => !(existing.contains (file_name ++ "_" ++ toString (i + 1)))) with
        | some i => file_name ++ "_" ++ toString (i + 1)
        | none => file_name
    { file_path := dir ++ final_name, file_name := final_name,
      writes := [dir ++ final_name] }
  else
    { file_path := "", file_name := file_name, writes := [] }

/-- The Synthesis stage node `chart_generator`.

When `bypass_recommended_steps` is set the node computes the dataset summary
itself and takes its instructions from `user_instructions`; otherwise it
reads both the stored `all_datasets_summary` and `recommended_steps` from the
state.  `llmGen` stands for the fixed chain `prompt_template | llm |
PythonOutputParser()`, a function of the two prompt inputs; `postProcess`
stands for the composition `relocate_imports_inside_function` then
`add_comments_to_top(..., agent_name=AGENT_NAME)`.  Returns the update dict
together with the filesystem writes performed by logging. -/
def chart_generator (bypass_recommended_steps : Bool) (n_samples : Nat)
    (summarize : Option DataDict → Nat → List String)
    (llmGen : Option String → Option String → String)
    (postProcess : String → String)
    (log : Bool) (log_path : Option String) (file_name : String)
    (overwrite : Bool) (existing : List String)
    (st : GraphState) : StateUpdate × List String :=
  let pair :=
    if bypass_recommended_steps then
      (some (String.intercalate "\n\n" (summarize st.data_raw n_samples)),
       st.user_instructions)
    else
      (st.all_datasets_summary, st.recommended_steps)
  let all_datasets_summary_str := pair.1
  let chart_generator_instructions := pair.2
  let response :=
    postProcess (llmGen chart_generator_instructions all_datasets_summary_str)
  let logRes := log_ai_function response file_name log log_path overwrite existing
  ({ data_visualization_function := some (some response),
     data_visualization_function_path := some (some logRes.file_path),
     data_visualization_function_name := some (some logRes.file_name),
     all_datasets_summary := some all_datasets_summary_str },
   logRes.writes)

/-! ### Review gate (`human_review`) -/

/-- Result of the human review node: the node name routed to (the `goto` of
the returned `Command`) and the partial state update it carries. -/
structure ReviewResult where
  goto : String
  update : StateUpdate

/-- Modelled from the spec: `node_func_human_review` is from
`ai_data_science_team.templates`, which is not under src/.  §6 Human-review
collaborator: "yes" (case-insensitive, trimmed) is the sole affirmative
token; anything else is treated as replacement instructions.  §4.3: an
affirmative verdict routes to `yes_goto`; any other text is overwritten
into the `user_instructions` key and control routes to `no_goto`. -/
def node_func_human_review (verdict : String) (yes_goto no_goto : String) :
    ReviewResult :=
  if pyLower (pyStrip verdict) = "yes" then
    { goto := yes_goto, update := {} }
  else
    { goto := no_goto, update := { user_instructions := some (some verdict) } }

/-- The `human_review` node as wired in the source: with explanation enabled
(`bypass_explain_code = false`) the affirmative target is
`explain_data_visualization_code`; with it disabled the affirmative target is
`__end__`; the negative target is `chart_instructor` in both variants. -/
def human_review (bypass_explain_code : Bool) (verdict : String) :
    ReviewResult :=
  if bypass_explain_code then
    node_func_human_review verdict "__end__" "chart_instructor"
  else
    node_func_human_review verdict "explain_data_visualization_code" "chart_instructor"

/-! ### Execution stage (`execute_data_visualization_code`) -/

/-- Modelled from the spec: `node_func_execute_agent_code_on_data` is from
`ai_data_science_team.templates`, which is not under src/.  §4.4: load the
function by its fixed name from the generated source, run it on the
converted dataset, catch any exception.  On success the result key is set
and the error key cleared; on failure the error key is set to the prefixed
diagnostic and the artifact is cleared/absent.  `runCode` stands for the
sandboxed load-and-call of the generated source on the raw data, returning
the artifact or the exception message. -/
def node_func_execute_agent_code_on_data
    (runCode : Option String → Option DataDict → Except String PlotlyDict)
    (errorMessagePrefix : String) (st : GraphState) : StateUpdate :=
  match runCode st.data_visualization_function st.data_raw with
  | Except.ok artifact =>
      { plotly_graph := some (some artifact),
        data_visualization_error := some none }
  | Except.error e =>
      { plotly_graph := some none,
        data_visualization_error := some (some (errorMessagePrefix ++ e)) }

/-- The diagnostic prefix passed by the source to the execution node. -/
def dataVizErrorPrefix : String := "An error occurred during data visualization: "

/-- The `execute_data_visualization_code` node: the generic execution node
instantiated with result key `plotly_graph`, error key
`data_visualization_error`, code key `data_visualization_function` and the
source's error message prefix. -/
def execute_data_visualization_code
    (runCode : Option String → Option DataDict → Except String PlotlyDict)
    (st : GraphState) : StateUpdate :=
  node_func_execute_agent_code_on_data runCode dataVizErrorPrefix st

/-! ### Repair stage (`fix_data_visualization_code`) -/

/-- Modelled from the spec: `node_func_fix_agent_code` is from
`ai_data_science_team.templates`, which is not under src/.  §4.5: invokes
the model with the broken code and the last error, overwrites the code with
the corrected single-function replacement, increments `retry_count` by 1,
and re-persists the corrected code under the same file identity when
logging is enabled.  `llmFix` stands for the model call on the prompt built
from the code snippet and the error. -/
def node_func_fix_agent_code (llmFix : Option String → Option String → String)
    (log : Bool) (file_path : Option String) (st : GraphState) :
    StateUpdate × List String :=
  let newCode := llmFix st.data_visualization_function st.data_visualization_error
  ({ data_visualization_function := some (some newCode),
     retry_count := some (st.retry_count + 1) },
   if log then [(file_path.getD "")] else [])

/-- The `fix_data_visualization_code` node: the generic fix node wired with
the code key `data_visualization_function`, the error key
`data_visualization_error`, and the file path taken from the state. -/
def fix_data_visualization_code (llmFix : Option String → Option String → String)
    (log : Bool) (st : GraphState) : StateUpdate × List String :=
  node_func_fix_agent_code llmFix log st.data_visualization_function_path st

/-! ### Explanation stage (`explain_data_visualization_code`) -/

/-- Modelled from the spec: `node_func_explain_agent_code` is from
`ai_data_science_team.templates`, which is not under src/.  §4.6: if no
error is present, invoke the model once on the final code and append the
prefixed prose summary to `messages`; if an error is present, append the
fixed failure message instead. -/
def node_func_explain_agent_code (llmExplain : Option String → String)
    (successPrefix : String) (errorMessage : String) (st : GraphState) :
    StateUpdate :=
  if st.data_visualization_error.isSome then
    { messages := [errorMessage] }
  else
    { messages := [successPrefix ++ llmExplain st.data_visualization_function] }

/-- The `explain_data_visualization_code` node with the source's success
prefix and failure message. -/
def explain_data_visualization_code (llmExplain : Option String → String)
    (st : GraphState) : StateUpdate :=
  node_func_explain_agent_code llmExplain
    "# Data Visualization Agent:\n\n "
    "The Data Visualization Agent encountered an error during data visualization. No explanation could be provided."
    st

/-! ### Router: the Execution↔Repair cycle -/

/-- Modelled from the spec: the conditional edge after Execution belongs to
`create_coding_agent_graph` (from `ai_data_science_team.templates`, not
under src/).  §4.5: the Repair stage is entered only when the error key is
non-empty after Execution AND `retry_count < max_retries`; otherwise the
router leaves the Execution↔Repair cycle (towards Explanation or the
terminal state). -/
def should_repair (st : GraphState) : Bool :=
  st.data_visualization_error.isSome && decide (st.retry_count < st.max_retries)

/-- Modelled from the spec: the initial node chosen by
`create_coding_agent_graph` (not under src/).  §4.7: the initial state is
the Instruction stage, unless the instruction bypass is configured, in which
case the Synthesis stage is initial. -/
def entry_node_for (bypass_recommended_steps : Bool) : String :=
  if bypass_recommended_steps then "chart_generator" else "chart_instructor"

/-- One run of the bounded Execution↔Repair cycle, driven by the router
condition `should_repair`: execute, and while the error key is set with
retries remaining, repair and execute again.  `fuel` is an upper bound on
the number of Execution passes attempted (the cycle is claimed to need at
most `max_retries + 1` of them); the returned number counts the Execution
passes actually performed.  The filesystem writes of the repair passes are
accumulated as well. -/
def execRepairLoop
    (runCode : Option String → Option DataDict → Except String PlotlyDict)
    (llmFix : Option String → Option String → String) (log : Bool) :
    Nat → GraphState → GraphState × Nat × List String
  | 0, st => (st, 0, [])
  | fuel + 1, st =>
      let st1 := mergeState st (execute_data_visualization_code runCode st)
      if should_repair st1 then
        let fixed := fix_data_visualization_code llmFix log st1
        let st2 := mergeState st1 fixed.1
        let rest := execRepairLoop runCode llmFix log fuel st2
        (rest.1, rest.2.1 + 1, fixed.2 ++ rest.2.2)
      else
        (st1, 1, [])

/-! ### Graph construction (`make_data_visualization_agent`) -/

/-- The warning printed when the instruction bypass is disabled to enable
human review. -/
def bypassWarning : String :=
  "Bypass recommended steps set to False to enable human in the loop."

/-- The observable outcome of `make_data_visualization_agent`: the effective
configuration baked into the compiled graph, the entry node, the warnings
printed, and the directories created during construction. -/
structure CompiledAgentGraph where
  n_samples : Nat
  log : Bool
  log_path : Option String
  file_name : String
  overwrite : Bool
  human_in_the_loop : Bool
  bypass_recommended_steps : Bool
  bypass_explain_code : Bool
  entry_node : String
  warnings : List String
  dirs_created : List String
deriving DecidableEq

/-- `make_data_visualization_agent`: reconciles the flag conflict (human in
the loop requires the recommended-steps stage, so the bypass is turned off
with a printed warning), resolves the log directory (defaulting to
`LOG_PATH`) and creates it when logging is enabled and it does not exist,
and assembles the graph.  `dirExists` stands for `os.path.exists`.  The
entry node is the spec-modelled `entry_node_for` of the effective bypass
flag. -/
def make_data_visualization_agent (n_samples : Nat) (log : Bool)
    (log_path : Option String) (file_name : String) (overwrite : Bool)
    (human_in_the_loop : Bool) (bypass_recommended_steps : Bool)
    (bypass_explain_code : Bool) (dirExists : String → Bool) :
    CompiledAgentGraph :=
  let conflict := bypass_recommended_steps && human_in_the_loop
  let brs := if conflict then false else bypass_recommended_steps
  let lp := if log then some (log_path.getD LOG_PATH) else log_path
  { n_samples := n_samples
    log := log
    log_path := lp
    file_name := file_name
    overwrite := overwrite
    human_in_the_loop := human_in_the_loop
    bypass_recommended_steps := brs
    bypass_explain_code := bypass_explain_code
    entry_node := entry_node_for brs
    warnings := if conflict then [bypassWarning] else []
    dirs_created :=
      if log then
        let d := log_path.getD LOG_PATH
        if dirExists d then [] else [d]
      else [] }

/-! ### The `DataVisualizationAgent` class -/

/-- The `_params` dictionary of `DataVisualizationAgent.__init__`.  `M` is
the type of the language-model object (opaque to the class). -/
structure AgentParams (M : Type) where
  model : M
  n_samples : Nat
  log : Bool
  log_path : Option String
  file_name : String
  overwrite : Bool
  human_in_the_loop : Bool
  bypass_recommended_steps : Bool
  bypass_explain_code : Bool
deriving DecidableEq

/-- `make_data_visualization_agent(**self._params)` applied to a parameter
record (the model object itself only feeds the LLM chains, which are
abstracted; the remaining parameters shape the compiled graph). -/
def makeFromParams {M : Type} (p : AgentParams M) (dirExists : String → Bool) :
    CompiledAgentGraph :=
  make_data_visualization_agent p.n_samples p.log p.log_path p.file_name
    p.overwrite p.human_in_the_loop p.bypass_recommended_steps
    p.bypass_explain_code dirExists

/-- The `DataVisualizationAgent` object: its parameter dictionary, its
compiled graph and the stored `response` (the final workflow state of the
last invocation, `None` before any invocation completes). -/
structure DataVisualizationAgent (M : Type) where
  _params : AgentParams M
  _compiled_graph : CompiledAgentGraph
  response : Option GraphState

namespace DataVisualizationAgent

/-- `__init__`: store the parameters, compile the graph, set `response`
to `None`. -/
def init {M : Type} (p : AgentParams M) (dirExists : String → Bool) :
    DataVisualizationAgent M where
  _params := p
  _compiled_graph := makeFromParams p dirExists
  response := none

/-- `_make_compiled_graph`: resets `response` to `None` and rebuilds the
compiled graph from the current parameters (the caller assigns the result
to `_compiled_graph`; both effects are captured here). -/
def _make_compiled_graph {M : Type} (a : DataVisualizationAgent M)
    (dirExists : String → Bool) : DataVisualizationAgent M :=
  { a with
    response := none
    _compiled_graph := makeFromParams a._params dirExists }

/-- The keyword arguments of `update_params`: each field present (`some`)
overwrites the stored parameter of the same name. -/
structure ParamsUpdate (M : Type) where
  model : Option M := none
  n_samples : Option Nat := none
  log : Option Bool := none
  log_path : Option (Option String) := none
  file_name : Option String := none
  overwrite : Option Bool := none
  human_in_the_loop : Option Bool := none
  bypass_recommended_steps : Option Bool := none
  bypass_explain_code : Option Bool := none

/-- `for k, v in kwargs.items(): self._params[k] = v`. -/
def applyParamsUpdate {M : Type} (p : AgentParams M) (u : ParamsUpdate M) :
    AgentParams M where
  model := u.model.getD p.model
  n_samples := u.n_samples.getD p.n_samples
  log := u.log.getD p.log
  log_path := u.log_path.getD p.log_path
  file_name := u.file_name.getD p.file_name
  overwrite := u.overwrite.getD p.overwrite
  human_in_the_loop := u.human_in_the_loop.getD p.human_in_the_loop
  bypass_recommended_steps :=
    u.bypass_recommended_steps.getD p.bypass_recommended_steps
  bypass_explain_code := u.bypass_explain_code.getD p.bypass_explain_code

/-- `update_params(**kwargs)`: overwrite the named parameters and rebuild
the compiled graph (which resets `response` to `None`). -/
def update_params {M : Type} (a : DataVisualizationAgent M)
    (u : ParamsUpdate M) (dirExists : String → Bool) :
    DataVisualizationAgent M :=
  _make_compiled_graph { a with _params := applyParamsUpdate a._params u } dirExists

/-- The initial-state dictionary passed by `invoke_agent` / `ainvoke_agent`
to the compiled graph. -/
structure InvokeInputs where
  user_instructions : Option String
  data_raw : Option DataDict
  max_retries : Nat
  retry_count : Nat
deriving DecidableEq

/-- `invoke_agent`: builds the input dictionary
`{user_instructions, data_raw: data_raw.to_dict(), max_retries, retry_count}`,
runs the compiled graph on it (`graphInvoke` stands for
`self._compiled_graph.invoke`), stores the final state in `self.response`,
and returns `None`.  The second component of the result is the value the
method returns to its caller. -/
def invoke_agent {M : Type} (graphInvoke : InvokeInputs → GraphState)
    (a : DataVisualizationAgent M) (data_raw : DataDict)
    (user_instructions : Option String) (max_retries : Nat)
    (retry_count : Nat) :
    DataVisualizationAgent M × Option GraphState :=
  let response := graphInvoke
    { user_instructions := user_instructions
      data_raw := some data_raw
      max_retries := max_retries
      retry_count := retry_count }
  ({ a with response := some response }, none)

/-- `ainvoke_agent`: the non-blocking variant; same input dictionary, the
graph run via `self._compiled_graph.ainvoke` (stood for by `graphAinvoke`),
result stored in `self.response`, and `None` returned to the caller. -/
def ainvoke_agent {M : Type} (graphAinvoke : InvokeInputs → GraphState)
    (a : DataVisualizationAgent M) (data_raw : DataDict)
    (user_instructions : Option String) (max_retries : Nat)
    (retry_count : Nat) :
    DataVisualizationAgent M × Option GraphState :=
  let response := graphAinvoke
    { user_instructions := user_instructions
      data_raw := some data_raw
      max_retries := max_retries
      retry_count := retry_count }
  ({ a with response := some response }, none)

/-- `explain_visualization_steps`: the stored messages when a response is
available, the empty list otherwise. -/
def explain_visualization_steps {M : Type} (a : DataVisualizationAgent M) :
    List String :=
  match a.response with
  | some r => r.messages
  | none => []

/-- `get_log_summary`: `"Log Path: <path>"` when a response is available and
its `data_visualization_function_path` is truthy (non-empty), `None`
otherwise (the `markdown` flag only changes the display wrapper, not the
text). -/
def get_log_summary {M : Type} (a : DataVisualizationAgent M) :
    Option String :=
  match a.response with
  | some r =>
      match r.data_visualization_function_path with
      | some p => if p = "" then none else some ("Log Path: " ++ p)
      | none => none
  | none => none

/-- `get_plotly_graph`: applies the external converter `plotly_from_dict`
(stood for by `plotlyFromDict`, producing a figure of some type `F`) to the
stored `plotly_graph` entry when a response is available; `None`
otherwise. -/
def get_plotly_graph {M F : Type}
    (plotlyFromDict : Option PlotlyDict → F) (a : DataVisualizationAgent M) :
    Option F :=
  match a.response with
  | some r => some (plotlyFromDict r.plotly_graph)
  | none => none

/-- `get_data_raw`: the stored raw dataset when a response is available and
its `data_raw` entry is truthy (a non-empty dictionary); `None` otherwise
(the external `pd.DataFrame` reconstruction keeps the same dictionary
content). -/
def get_data_raw {M : Type} (a : DataVisualizationAgent M) :
    Option DataDict :=
  match a.response with
  | some r =>
      match r.data_raw with
      | some d => if d.isEmpty then none else some d
      | none => none
  | none => none

/-- `get_data_visualization_function`: the generated code (defaulting to
`""`) when a response is available, wrapped in a python code fence when
`markdown` is set; `None` otherwise. -/
def get_data_visualization_function {M : Type} (markdown : Bool)
    (a : DataVisualizationAgent M) : Option String :=
  match a.response with
  | some r =>
      let func_code := r.data_visualization_function.getD ""
      if markdown then some ("```python\n" ++ func_code ++ "\n```")
      else some func_code
  | none => none

/-- `get_recommended_visualization_steps`: the stored recommended steps
(defaulting to `""`) when a response is available, `None` otherwise (the
`markdown` flag only changes the display wrapper, not the text). -/
def get_recommended_visualization_steps {M : Type}
    (a : DataVisualizationAgent M) : Option String :=
  match a.response with
  | some r => some (r.recommended_steps.getD "")
  | none => none

/-- `get_response`: the stored response dictionary. -/
def get_response {M : Type} (a : DataVisualizationAgent M) :
    Option GraphState :=
  a.response

end DataVisualizationAgent

open DataVisualizationAgent

/-! ### Concrete fixtures used by witnesses and counterexamples -/

/-- A workflow state with every optional key absent and zero counters. -/
def emptyGraphState : GraphState where
  messages := []
  user_instructions := none
  user_instructions_processed := none
  recommended_steps := none
  data_raw := none
  plotly_graph := none
  all_datasets_summary := none
  data_visualization_function := none
  data_visualization_function_path := none
  data_visualization_function_name := none
  data_visualization_error := none
  max_retries := 0
  retry_count := 0

/-- Default constructor parameters (model object stood for by `0`). -/
def sampleParams : AgentParams Nat where
  model := 0
  n_samples := 30
  log := false
  log_path := none
  file_name := "data_visualization.py"
  overwrite := true
  human_in_the_loop := false
  bypass_recommended_steps := false
  bypass_explain_code := false

/-- A freshly constructed agent (no invocation has completed). -/
def sampleAgent : DataVisualizationAgent Nat :=
  DataVisualizationAgent.init sampleParams (fun _ => false)

/-- A small concrete dataset dictionary. -/
def sampleData : DataDict := [("x", ["1", "2"])]

/-- A concrete stand-in for the compiled graph run: echoes the inputs into
the final workflow state. -/
def sampleGraphRun : InvokeInputs → GraphState := fun i =>
  { emptyGraphState with
    user_instructions := i.user_instructions
    data_raw := i.data_raw
    max_retries := i.max_retries
    retry_count := i.retry_count }

/-! ### Claims -/

/-- C3: after every Execution pass, exactly one of the two outcome fields is
populated, tied to the sandbox result: when the generated function runs
successfully the artifact is stored in `plotly_graph` (non-empty) and
`data_visualization_error` is cleared; when it raises, the error key is set
to a diagnostic beginning with
"An error occurred during data visualization: " followed by the exception
text and `plotly_graph` is left empty — never both set, never both empty. -/
theorem C3_execution_outcome
    (runCode : Option String → Option DataDict → Except String PlotlyDict)
    (st : GraphState) :
    (∀ artifact,
      runCode st.data_visualization_function st.data_raw = Except.ok artifact →
      (mergeState st (execute_data_visualization_code runCode st)).plotly_graph
        = some artifact ∧
      (mergeState st (execute_data_visualization_code runCode st)).data_visualization_error
        = none) ∧
    (∀ e,
      runCode st.data_visualization_function st.data_raw = Except.error e →
      (mergeState st (execute_data_visualization_code runCode st)).data_visualization_error
        = some (dataVizErrorPrefix ++ e) ∧
      (mergeState st (execute_data_visualization_code runCode st)).plotly_graph
        = none) ∧
    ¬((mergeState st (execute_data_visualization_code runCode st)).plotly_graph.isSome = true ∧
      (mergeState st (execute_data_visualization_code runCode st)).data_visualization_error.isSome = true) ∧
    ¬((mergeState st (execute_data_visualization_code runCode st)).plotly_graph = none ∧
      (mergeState st (execute_data_visualization_code runCode st)).data_visualization_error = none) := by
  refine ⟨?_, ?_, ?_, ?_⟩
  · intro artifact h
    constructor <;>
      simp [execute_data_visualization_code,
        node_func_execute_agent_code_on_data, mergeState, h]
  · intro e h
    constructor <;>
      simp [execute_data_visualization_code,
        node_func_execute_agent_code_on_data, mergeState, h]
  · cases h : runCode st.data_visualization_function st.data_raw <;>
      simp [execute_data_visualization_code,
        node_func_execute_agent_code_on_data, mergeState, h]
  · cases h : runCode st.data_visualization_function st.data_raw <;>
      simp [execute_data_visualization_code,
        node_func_execute_agent_code_on_data, mergeState, h]

/-- C4: at the Review Gate, the verdict "yes" (case-insensitive, trimmed)
routes forward — to `explain_data_visualization_code` when explanation is
enabled and to `__end__` when it is disabled — while any other non-empty
verdict is written into `user_instructions` and control returns to
`chart_instructor`. -/
theorem C4_review_gate (bypass_explain_code : Bool) (verdict : String) :
    (pyLower (pyStrip verdict) = "yes" →
      (human_review bypass_explain_code verdict).goto
        = (if bypass_explain_code then "__end__"
           else "explain_data_visualization_code") ∧
      (human_review bypass_explain_code verdict).update.user_instructions = none) ∧
    (¬pyLower (pyStrip verdict) = "yes" → ¬verdict = "" →
      (human_review bypass_explain_code verdict).goto = "chart_instructor" ∧
      (human_review bypass_explain_code verdict).update.user_instructions
        = some (some verdict)) := by
  constructor
  · intro h
    cases bypass_explain_code <;>
      simp [human_review, node_func_human_review, h]
  · intro h _
    cases bypass_explain_code <;>
      simp [human_review, node_func_human_review, h]

/-- C5: constructing the agent graph with `human_in_the_loop=True` and
`bypass_recommended_steps=True` resolves the conflict at construction time:
the instruction bypass is disabled, the warning is emitted, and
`chart_instructor` is the entry node. -/
theorem C5_flag_conflict (n_samples : Nat) (log : Bool)
    (log_path : Option String) (file_name : String) (overwrite : Bool)
    (bypass_explain_code : Bool) (dirExists : String → Bool) :
    (make_data_visualization_agent n_samples log log_path file_name overwrite
        true true bypass_explain_code dirExists).bypass_recommended_steps = false ∧
    (make_data_visualization_agent n_samples log log_path file_name overwrite
        true true bypass_explain_code dirExists).warnings = [bypassWarning] ∧
    (make_data_visualization_agent n_samples log log_path file_name overwrite
        true true bypass_explain_code dirExists).entry_node = "chart_instructor" := by
  refine ⟨rfl, rfl, rfl⟩

/-- C6 counterexample: `invoke_agent` does not return the final workflow
state to the caller — at a concrete input its returned value is `None`, not
the final state produced by the compiled graph. -/
theorem C6_counterexample :
    ¬((DataVisualizationAgent.invoke_agent sampleGraphRun sampleAgent
        sampleData none 3 0).2
      = some (sampleGraphRun
          { user_instructions := none, data_raw := some sampleData,
            max_retries := 3, retry_count := 0 })) := by
  simp [DataVisualizationAgent.invoke_agent]

/-- C6 (amended): both `invoke_agent` and `ainvoke_agent` accept
`{user_instructions, data_raw, max_retries, retry_count}`, run the compiled
graph on exactly that input dictionary, store the full final workflow state
in the agent's `response` attribute — retrievable via `get_response` — and
return `None` to the caller. -/
theorem C6_invoke_contract {M : Type}
    (graphInvoke graphAinvoke : InvokeInputs → GraphState)
    (a : DataVisualizationAgent M) (data_raw : DataDict)
    (user_instructions : Option String) (max_retries retry_count : Nat) :
    (DataVisualizationAgent.invoke_agent graphInvoke a data_raw
        user_instructions max_retries retry_count).2 = none ∧
    (DataVisualizationAgent.invoke_agent graphInvoke a data_raw
        user_instructions max_retries retry_count).1.get_response
      = some (graphInvoke
          { user_instructions := user_instructions, data_raw := some data_raw,
            max_retries := max_retries, retry_count := retry_count }) ∧
    (DataVisualizationAgent.ainvoke_agent graphAinvoke a data_raw
        user_instructions max_retries retry_count).2 = none ∧
    (DataVisualizationAgent.ainvoke_agent graphAinvoke a data_raw
        user_instructions max_retries retry_count).1.get_response
      = some (graphAinvoke
          { user_instructions := user_instructions, data_raw := some data_raw,
            max_retries := max_retries, retry_count := retry_count }) := by
  refine ⟨rfl, rfl, rfl, rfl⟩

/-- C9: every accessor called before any invocation has completed
(`response` is `None`) returns its empty default and raises nothing:
`get_plotly_graph`, `get_data_raw`, `get_data_visualization_function`,
`get_recommended_visualization_steps`, `get_log_summary` and `get_response`
return `None`, and `explain_visualization_steps` returns the empty list. -/
theorem C9_accessor_defaults {M F : Type}
    (plotlyFromDict : Option PlotlyDict → F) (markdown : Bool)
    (a : DataVisualizationAgent M) (h : a.response = none) :
    a.get_plotly_graph plotlyFromDict = none ∧
    a.get_data_raw = none ∧
    a.get_data_visualization_function markdown = none ∧
    a.get_recommended_visualization_steps = none ∧
    a.get_log_summary = none ∧
    a.get_response = none ∧
    a.explain_visualization_steps = [] := by
  refine ⟨?_, ?_, ?_, ?_, ?_, ?_, ?_⟩ <;>
    simp [DataVisualizationAgent.get_plotly_graph,
      DataVisualizationAgent.get_data_raw,
      DataVisualizationAgent.get_data_visualization_function,
      DataVisualizationAgent.get_recommended_visualization_steps,
      DataVisualizationAgent.get_log_summary,
      DataVisualizationAgent.get_response,
      DataVisualizationAgent.explain_visualization_steps, h]

/-- C9 witness: the defaults evaluated on a freshly constructed agent. -/
theorem C9_accessor_defaults_witness :
    sampleAgent.get_plotly_graph (fun g => g) = none ∧
    sampleAgent.get_data_raw = none ∧
    sampleAgent.get_data_visualization_function false = none ∧
    sampleAgent.get_recommended_visualization_steps = none ∧
    sampleAgent.get_log_summary = none ∧
    sampleAgent.get_response = none ∧
    sampleAgent.explain_visualization_steps = [] :=
  C9_accessor_defaults (fun g => g) false sampleAgent rfl

/-- C10: `update_params` changes exactly the parameters named in its keyword
arguments (every unnamed parameter keeps its previous value), rebuilds the
compiled graph from the updated parameters, and resets the stored response
to `None`, so every accessor returns its empty default. -/
theorem C10_update_params_frame {M F : Type}
    (plotlyFromDict : Option PlotlyDict → F) (markdown : Bool)
    (a : DataVisualizationAgent M) (u : ParamsUpdate M)
    (dirExists : String → Bool) :
    (a.update_params u dirExists)._params.model
      = u.model.getD a._params.model ∧
    (a.update_params u dirExists)._params.n_samples
      = u.n_samples.getD a._params.n_samples ∧
    (a.update_params u dirExists)._params.log = u.log.getD a._params.log ∧
    (a.update_params u dirExists)._params.log_path
      = u.log_path.getD a._params.log_path ∧
    (a.update_params u dirExists)._params.file_name
      = u.file_name.getD a._params.file_name ∧
    (a.update_params u dirExists)._params.overwrite
      = u.overwrite.getD a._params.overwrite ∧
    (a.update_params u dirExists)._params.human_in_the_loop
      = u.human_in_the_loop.getD a._params.human_in_the_loop ∧
    (a.update_params u dirExists)._params.bypass_recommended_steps
      = u.bypass_recommended_steps.getD a._params.bypass_recommended_steps ∧
    (a.update_params u dirExists)._params.bypass_explain_code
      = u.bypass_explain_code.getD a._params.bypass_explain_code ∧
    (a.update_params u dirExists)._compiled_graph
      = makeFromParams (applyParamsUpdate a._params u) dirExists ∧
    (a.update_params u dirExists).response = none ∧
    (a.update_params u dirExists).get_response = none ∧
    (a.update_params u dirExists).explain_visualization_steps = [] ∧
    (a.update_params u dirExists).get_plotly_graph plotlyFromDict = none ∧
    (a.update_params u dirExists).get_data_raw = none ∧
    (a.update_params u dirExists).get_data_visualization_function markdown = none ∧
    (a.update_params u dirExists).get_recommended_visualization_steps = none ∧
    (a.update_params u dirExists).get_log_summary = none := by
  refine ⟨rfl, rfl, rfl, rfl, rfl, rfl, rfl, rfl, rfl, rfl, rfl, rfl, rfl,
    rfl, rfl, ?_, rfl, rfl⟩
  simp [DataVisualizationAgent.update_params,
    DataVisualizationAgent._make_compiled_graph,
    DataVisualizationAgent.get_data_visualization_function]

/-- Previously accumulated recommended steps of length 100, for the C2
counterexample. -/
def priorStepsCex : String := String.mk (List.replicate 100 'A')

/-- A state that already carries accumulated recommended steps. -/
def stateWithStepsCex : GraphState :=
  { emptyGraphState with recommended_steps := some priorStepsCex }

/-- C2 counterexample: on an Instruction-stage revisit the previously
accumulated `recommended_steps` text is NOT preserved in the resulting
value: with stored steps of length 100 and the model replying "NEW", the new
value has length 40, so the prior text occurs nowhere inside it. -/
theorem C2_counterexample :
    ¬ ∃ pre post,
      (mergeState stateWithStepsCex
          (chart_instructor 30 (fun _ _ => ["S"]) (fun _ _ _ => "NEW")
            stateWithStepsCex)).recommended_steps
        = some (pre ++ priorStepsCex ++ post) := by
  rintro ⟨pre, post, h⟩
  have hval : (mergeState stateWithStepsCex
      (chart_instructor 30 (fun _ _ => ["S"]) (fun _ _ _ => "NEW")
        stateWithStepsCex)).recommended_steps
      = some "\n\n# Recommended Data Cleaning Steps:\nNEW" := by decide
  rw [hval] at h
  have h2 : "\n\n# Recommended Data Cleaning Steps:\nNEW"
      = pre ++ priorStepsCex ++ post := Option.some.inj h
  have h3 := congrArg String.length h2
  rw [String.length_append, String.length_append] at h3
  have h4 : priorStepsCex.length = 100 := by decide
  have h5 : ("\n\n# Recommended Data Cleaning Steps:\nNEW" : String).length = 40 := by
    decide
  omega

/-- C2 (amended): each Instruction-stage pass REPLACES `recommended_steps`
with a single labeled block — the fixed label followed by the stripped model
reply.  The previously accumulated steps are passed to the model as a prompt
input but are not otherwise retained in the stored value (the `GraphState`
annotation of `recommended_steps` is a plain overwrite field). -/
theorem C2_steps_replaced (n_samples : Nat)
    (summarize : Option DataDict → Nat → List String)
    (llmInstruct : Option String → Option String → String → String)
    (st : GraphState) :
    (mergeState st (chart_instructor n_samples summarize llmInstruct st)).recommended_steps
      = some (recommendedStepsLabel ++
          pyStrip (llmInstruct st.user_instructions st.recommended_steps
            (String.intercalate "\n\n" (summarize st.data_raw n_samples)))) := rfl

/-- A state that already carries a dataset summary. -/
def stateWithSummaryCex : GraphState :=
  { emptyGraphState with all_datasets_summary := some "STORED SUMMARY" }

/-- C8 counterexample: `chart_instructor` does not compute the dataset
profile "only if it is not already present": on a state whose stored summary
is "STORED SUMMARY" it invokes the summarizer again and overwrites the
stored value with the fresh output. -/
theorem C8_counterexample :
    ¬ (mergeState stateWithSummaryCex
        (chart_instructor 30 (fun _ _ => ["FRESH"]) (fun _ _ _ => "NEW")
          stateWithSummaryCex)).all_datasets_summary
      = stateWithSummaryCex.all_datasets_summary := by
  decide

/-- C8 (amended): `chart_instructor` recomputes the dataset summary
unconditionally on every pass, overwriting the stored value with the fresh
summarizer output; `chart_generator` on the normal path reuses the stored
summary — its result does not depend on the summarizer at all and it writes
the stored value back — and only on the bypass path computes the summary
itself. -/
theorem C8_summary_usage (n_samples : Nat)
    (summarizeA summarizeB : Option DataDict → Nat → List String)
    (llmInstruct : Option String → Option String → String → String)
    (llmGen : Option String → Option String → String)
    (postProcess : String → String) (log : Bool) (log_path : Option String)
    (file_name : String) (overwrite : Bool) (existing : List String)
    (st : GraphState) :
    (mergeState st (chart_instructor n_samples summarizeA llmInstruct st)).all_datasets_summary
      = some (String.intercalate "\n\n" (summarizeA st.data_raw n_samples)) ∧
    chart_generator false n_samples summarizeA llmGen postProcess log
        log_path file_name overwrite existing st
      = chart_generator false n_samples summarizeB llmGen postProcess log
        log_path file_name overwrite existing st ∧
    (mergeState st (chart_generator false n_samples summarizeA llmGen
        postProcess log log_path file_name overwrite existing st).1).all_datasets_summary
      = st.all_datasets_summary ∧
    (chart_generator true n_samples summarizeA llmGen postProcess log
        log_path file_name overwrite existing st).1.all_datasets_summary
      = some (some (String.intercalate "\n\n" (summarizeA st.data_raw n_samples))) := by
  refine ⟨rfl, rfl, rfl, rfl⟩

/-- `data_visualization_function_path` is empty or absent. -/
def pathEmpty (st : GraphState) : Prop :=
  st.data_visualization_function_path = none ∨
  st.data_visualization_function_path = some ""

instance (st : GraphState) : Decidable (pathEmpty st) := by
  unfold pathEmpty
  infer_instance

/-- Merging an update that does not set the function path leaves it
unchanged. -/
theorem mergeState_path_of_none (st : GraphState) (u : StateUpdate)
    (h : u.data_visualization_function_path = none) :
    (mergeState st u).data_visualization_function_path
      = st.data_visualization_function_path := by
  simp [mergeState, h]

/-- C7: with logging disabled (`log=False`), graph construction creates no
directory, the Synthesis stage performs no filesystem write and records the
empty path, the Repair stage re-persists nothing, and every other stage
leaves the path untouched — so `data_visualization_function_path` stays
empty or absent in every state the pipeline produces. -/
theorem C7_no_logging_no_writes (n_samples : Nat)
    (summarize : Option DataDict → Nat → List String)
    (llmInstruct : Option String → Option String → String → String)
    (llmGen : Option String → Option String → String)
    (postProcess : String → String)
    (runCode : Option String → Option DataDict → Except String PlotlyDict)
    (llmFix : Option String → Option String → String)
    (llmExplain : Option String → String)
    (bypass_recommended_steps human_in_the_loop bypass_explain_code overwrite : Bool)
    (log_path : Option String) (file_name : String) (existing : List String)
    (dirExists : String → Bool) (verdict : String)
    (st : GraphState) (hp : pathEmpty st) :
    (make_data_visualization_agent n_samples false log_path file_name
        overwrite human_in_the_loop bypass_recommended_steps
        bypass_explain_code dirExists).dirs_created = [] ∧
    pathEmpty (mergeState st (chart_instructor n_samples summarize llmInstruct st)) ∧
    (chart_generator bypass_recommended_steps n_samples summarize llmGen
        postProcess false log_path file_name overwrite existing st).2 = [] ∧
    pathEmpty (mergeState st (chart_generator bypass_recommended_steps
        n_samples summarize llmGen postProcess false log_path file_name
        overwrite existing st).1) ∧
    (fix_data_visualization_code llmFix false st).2 = [] ∧
    pathEmpty (mergeState st (fix_data_visualization_code llmFix false st).1) ∧
    pathEmpty (mergeState st (execute_data_visualization_code runCode st)) ∧
    pathEmpty (mergeState st (human_review bypass_explain_code verdict).update) ∧
    pathEmpty (mergeState st (explain_data_visualization_code llmExplain st)) := by
  refine ⟨rfl, ?_, rfl, ?_, rfl, ?_, ?_, ?_, ?_⟩
  · rw [pathEmpty, mergeState_path_of_none st _ rfl]
    exact hp
  · right
    rfl
  · rw [pathEmpty, mergeState_path_of_none st _ rfl]
    exact hp
  · rw [pathEmpty]
    cases h : runCode st.data_visualization_function st.data_raw <;>
      rw [mergeState_path_of_none st _ (by
        simp [execute_data_visualization_code,
          node_func_execute_agent_code_on_data, h])] <;>
      exact hp
  · rw [pathEmpty]
    have hup : (human_review bypass_explain_code verdict).update.data_visualization_function_path = none := by
      by_cases hv : pyLower (pyStrip verdict) = "yes" <;>
        cases bypass_explain_code <;>
          simp [human_review, node_func_human_review, hv]
    rw [mergeState_path_of_none st _ hup]
    exact hp
  · rw [pathEmpty]
    have hup : (explain_data_visualization_code llmExplain st).data_visualization_function_path = none := by
      unfold explain_data_visualization_code node_func_explain_agent_code
      split <;> rfl
    rw [mergeState_path_of_none st _ hup]
    exact hp

/-- A summarizer stand-in returning no summaries. -/
def noopSummarize : Option DataDict → Nat → List String := fun _ _ => []

/-- A model stand-in for the three-input instruction chain. -/
def noopLLM3 : Option String → Option String → String → String := fun _ _ _ => ""

/-- A model stand-in for the two-input chains. -/
def noopLLM2 : Option String → Option String → String := fun _ _ => ""

/-- A model stand-in for the one-input explanation chain. -/
def noopLLM1 : Option String → String := fun _ => ""

/-- An execution sandbox stand-in that always fails. -/
def failRun : Option String → Option DataDict → Except String PlotlyDict :=
  fun _ _ => Except.error "boom"

/-- C7 witness: the no-logging frame property evaluated on the empty state
with concrete collaborators. -/
theorem C7_no_logging_no_writes_witness :
    (make_data_visualization_agent 30 false none "data_visualization.py"
        true false false false (fun _ => false)).dirs_created = [] ∧
    pathEmpty (mergeState emptyGraphState
      (chart_instructor 30 noopSummarize noopLLM3 emptyGraphState)) ∧
    (chart_generator false 30 noopSummarize noopLLM2 id false none
        "data_visualization.py" true [] emptyGraphState).2 = [] ∧
    pathEmpty (mergeState emptyGraphState (chart_generator false 30
        noopSummarize noopLLM2 id false none "data_visualization.py" true []
        emptyGraphState).1) ∧
    (fix_data_visualization_code noopLLM2 false emptyGraphState).2 = [] ∧
    pathEmpty (mergeState emptyGraphState
      (fix_data_visualization_code noopLLM2 false emptyGraphState).1) ∧
    pathEmpty (mergeState emptyGraphState
      (execute_data_visualization_code failRun emptyGraphState)) ∧
    pathEmpty (mergeState emptyGraphState
      (human_review false "yes").update) ∧
    pathEmpty (mergeState emptyGraphState
      (explain_data_visualization_code noopLLM1 emptyGraphState)) :=
  C7_no_logging_no_writes 30 noopSummarize noopLLM3 noopLLM2 id failRun
    noopLLM2 noopLLM1 false false false true none "data_visualization.py" []
    (fun _ => false) "yes" emptyGraphState (Or.inl rfl)

/-- A failed Execution pass merged into the state: the artifact is cleared
and the prefixed diagnostic recorded, everything else unchanged. -/
theorem execute_fail_fields
    (runCode : Option String → Option DataDict → Except String PlotlyDict)
    (st : GraphState) (e : String)
    (h : runCode st.data_visualization_function st.data_raw = Except.error e) :
    mergeState st (execute_data_visualization_code runCode st)
      = { st with
          plotly_graph := none,
          data_visualization_error := some (dataVizErrorPrefix ++ e) } := by
  cases st
  simp [mergeState, execute_data_visualization_code,
    node_func_execute_agent_code_on_data, h]

/-- A Repair pass merged into the state: the code is replaced by the model
reply and `retry_count` is incremented by exactly 1, everything else
unchanged. -/
theorem fix_fields (llmFix : Option String → Option String → String)
    (log : Bool) (st : GraphState) :
    mergeState st (fix_data_visualization_code llmFix log st).1
      = { st with
          data_visualization_function := some (llmFix
            st.data_visualization_function st.data_visualization_error),
          retry_count := st.retry_count + 1 } := by
  cases st
  simp [mergeState, fix_data_visualization_code, node_func_fix_agent_code]

/-- When every Execution pass fails, the Execution↔Repair cycle performs
exactly `max_retries - retry_count + 1` Execution passes (given enough
fuel, independent of the surplus), ends with `retry_count = max_retries`,
and leaves the error key set. -/
theorem execRepairLoop_always_fail
    (runCode : Option String → Option DataDict → Except String PlotlyDict)
    (llmFix : Option String → Option String → String) (log : Bool)
    (hfail : ∀ c d, ∃ e, runCode c d = Except.error e) :
    ∀ (k fuel : Nat) (st : GraphState),
      st.max_retries - st.retry_count = k → k + 1 ≤ fuel →
      (execRepairLoop runCode llmFix log fuel st).2.1 = k + 1 ∧
      (execRepairLoop runCode llmFix log fuel st).1.retry_count
        = st.retry_count + k ∧
      (execRepairLoop runCode llmFix log fuel st).1.max_retries
        = st.max_retries ∧
      (execRepairLoop runCode llmFix log fuel st).1.data_visualization_error.isSome
        = true := by
  intro k
  induction k with
  | zero =>
      intro fuel st hk hf
      obtain ⟨f, rfl⟩ : ∃ f, fuel = f + 1 := ⟨fuel - 1, by omega⟩
      obtain ⟨e, he⟩ := hfail st.data_visualization_function st.data_raw
      have hsr : should_repair
          { st with
            plotly_graph := none,
            data_visualization_error := some (dataVizErrorPrefix ++ e) } = false := by
        simp only [should_repair]
        simp
        omega
      simp only [execRepairLoop, execute_fail_fields runCode st e he, hsr,
        Bool.false_eq_true, if_false]
      simp
  | succ n ih =>
      intro fuel st hk hf
      obtain ⟨f, rfl⟩ : ∃ f, fuel = f + 1 := ⟨fuel - 1, by omega⟩
      obtain ⟨e, he⟩ := hfail st.data_visualization_function st.data_raw
      have hsr : should_repair
          { st with
            plotly_graph := none,
            data_visualization_error := some (dataVizErrorPrefix ++ e) } = true := by
        simp only [should_repair]
        simp
        omega
      simp only [execRepairLoop, execute_fail_fields runCode st e he, hsr,
        if_true]
      rw [fix_fields]
      have hrec := ih f
        { st with
          plotly_graph := none,
          data_visualization_error := some (dataVizErrorPrefix ++ e),
          data_visualization_function := some (llmFix
            st.data_visualization_function (some (dataVizErrorPrefix ++ e))),
          retry_count := st.retry_count + 1 }
        (by simp; omega) (by omega)
      refine ⟨?_, ?_, ?_, ?_⟩
      · simp only at hrec ⊢
        omega
      · simp only at hrec ⊢
        omega
      · simp only at hrec ⊢
        omega
      · exact hrec.2.2.2

/-- C1: when Execution keeps failing, each Repair pass increments
`retry_count` by exactly 1, `should_repair` admits the Repair stage only
while `retry_count < max_retries`, and the Execution↔Repair cycle
terminates after exactly `max_retries + 1` Execution passes (for any
sufficient fuel) — never more — with the error still recorded. -/
theorem C1_retry_bound
    (runCode : Option String → Option DataDict → Except String PlotlyDict)
    (llmFix : Option String → Option String → String) (log : Bool)
    (hfail : ∀ c d, ∃ e, runCode c d = Except.error e)
    (st : GraphState) (h0 : st.retry_count = 0) (fuel : Nat)
    (hfuel : st.max_retries + 1 ≤ fuel) :
    (∀ s : GraphState,
      (mergeState s (fix_data_visualization_code llmFix log s).1).retry_count
        = s.retry_count + 1) ∧
    (∀ s : GraphState, should_repair s = true →
      s.retry_count < s.max_retries) ∧
    (execRepairLoop runCode llmFix log fuel st).2.1 = st.max_retries + 1 ∧
    (execRepairLoop runCode llmFix log fuel st).1.retry_count
      = st.max_retries ∧
    (execRepairLoop runCode llmFix log fuel st).1.data_visualization_error.isSome
      = true := by
  have main := execRepairLoop_always_fail runCode llmFix log hfail
    st.max_retries fuel st (by omega) (by omega)
  refine ⟨?_, ?_, main.1, ?_, main.2.2.2⟩
  · intro s
    rw [fix_fields]
  · intro s hs
    simp [should_repair] at hs
    exact hs.2
  · rw [main.2.1, h0]
    omega

/-- A state entering the repair loop with `max_retries = 2` and a zero
retry count. -/
def retryStart : GraphState := { emptyGraphState with max_retries := 2 }

/-- C1 witness: with a sandbox that always fails, `max_retries = 2` and
fuel 3, the cycle performs exactly 3 Execution passes and stops with
`retry_count = 2` and the error set. -/
theorem C1_retry_bound_witness :
    (∀ s : GraphState,
      (mergeState s (fix_data_visualization_code noopLLM2 false s).1).retry_count
        = s.retry_count + 1) ∧
    (∀ s : GraphState, should_repair s = true →
      s.retry_count < s.max_retries) ∧
    (execRepairLoop failRun noopLLM2 false 3 retryStart).2.1 = 3 ∧
    (execRepairLoop failRun noopLLM2 false 3 retryStart).1.retry_count = 2 ∧
    (execRepairLoop failRun noopLLM2 false 3 retryStart).1.data_visualization_error.isSome
      = true :=
  C1_retry_bound failRun noopLLM2 false (fun _ _ => ⟨"boom", rfl⟩)
    retryStart rfl 3 (by decide)

end DataVizAgent
